import Mathlib

/-!
Verification development for the `bjrs` repository: a blackjack engine
(Rust core compiled to wasm) with a React front end (`web/src/App.tsx`).

The front-end helpers and handlers are embedded directly from
`src/web/src/App.tsx`.  The wasm binding surface is embedded from the
module declaration (`src/unnamed/part_000`) and the README
(`src/unnamed/part_001`).  The engine core itself is not part of the
source tree, so its data model and actions are modelled from the
specification (each such definition carries a doc comment starting
with `Modelled from the spec:`).
-/

/- ===================== Card model ===================== -/

/-- Modelled from the spec: the four suits of a card (section 3). -/
inductive Suit
  | Hearts
  | Diamonds
  | Clubs
  | Spades
deriving DecidableEq, Repr

/-- Modelled from the spec: a card is a suit plus a rank in 1..13,
rank 1 the Ace, 11..13 the face cards (section 3). -/
structure Card where
  suit : Suit
  rank : Nat
deriving DecidableEq, Repr

/-- The suit serialized the way the wasm layer hands it to the web UI
(the `JsCard.suit` strings compared by `suitLabel` in App.tsx). -/
def suitString : Suit → String
  | .Hearts => "Hearts"
  | .Diamonds => "Diamonds"
  | .Clubs => "Clubs"
  | .Spades => "Spades"

/-- The card type seen by the web UI (`JsCard` in App.tsx): suit as a
string, rank as a number. -/
structure JsCard where
  suit : String
  rank : Nat
deriving DecidableEq, Repr

/-- Serialization of an engine card into the UI's card type. -/
def Card.toJs (c : Card) : JsCard := ⟨suitString c.suit, c.rank⟩

/- ===================== App.tsx pure helpers ===================== -/

/-- `makeSeed` from App.tsx line 73:
`Math.floor(Date.now() % 2 ** 32)`.  `Date.now()` is a non-negative
integer below 2^53, so the float remainder is exact and `Math.floor`
is the identity; the whole computation is `now % 2^32`. -/
def makeSeed (now : Nat) : Nat := now % 4294967296

/-- `rankLabel` from App.tsx lines 75-81. -/
def rankLabel (rank : Nat) : String :=
  if rank = 1 then "A"
  else if rank = 11 then "J"
  else if rank = 12 then "Q"
  else if rank = 13 then "K"
  else toString rank

/-- `suitLabel` from App.tsx lines 83-89. -/
def suitLabel (suit : String) : String :=
  if suit = "Hearts" then "♥"
  else if suit = "Diamonds" then "♦"
  else if suit = "Clubs" then "♣"
  else if suit = "Spades" then "♠"
  else (suit.take 1).toUpper

/-- `formatCard` from App.tsx lines 91-94: a null card renders as the
hidden placeholder. -/
def formatCard : Option JsCard → String
  | none => "??"
  | some card => rankLabel card.rank ++ suitLabel card.suit

/-- `cardClass` from App.tsx lines 96-100: a null card gets the
`card hidden` css class. -/
def cardClass : Option JsCard → String
  | none => "card hidden"
  | some card => "card " ++ card.suit.toLower

/-- The dealer "Value:" text from App.tsx line 394:
`snapshot?.dealer.hole_revealed ? snapshot?.dealer.value : "?"`. -/
def dealerValueText (holeRevealed : Bool) (value : Nat) : String :=
  if holeRevealed then toString value else "?"

/- ============ The bet signature as it appears in the sources ============ -/

/-- Parameter list of `WasmGame.bet` as declared in the wasm module
declaration, `src/unnamed/part_000` line 10: `bet(amount: number)`. -/
def wasmGameBetParams : List String := ["amount"]

/-- Parameter list of the core `Game::bet` as exercised by the README
usage example (`src/unnamed/part_001`): `game.bet(player_id, 50)`. -/
def coreGameBetParams : List String := ["player_id", "amount"]

/-- The argument list the UI passes in `handleBetAndDeal`
(App.tsx line 196): `instance.bet(bet)` - a single amount. -/
def handleBetAndDealBetArgs (betInput : Nat) : List Nat := [betInput]

/- ===================== Hand value model ===================== -/

/-- Modelled from the spec: pip value of a rank - face cards 11..13
count as 10 (section 4.1). -/
def cardPip (rank : Nat) : Nat := min rank 10

/-- Modelled from the spec: the hard total, every Ace counted as 1. -/
def hardTotal (cards : List Card) : Nat :=
  (cards.map (fun c => cardPip c.rank)).sum

/-- Whether the hand holds at least one Ace. -/
def holdsAce (cards : List Card) : Bool := cards.any (fun c => c.rank == 1)

/-- Modelled from the spec: hand value - at most one Ace counts as 11
when doing so keeps the total at or below 21 (section 4.1). -/
def handValue (cards : List Card) : Nat :=
  let h := hardTotal cards
  if holdsAce cards ∧ h + 10 ≤ 21 then h + 10 else h

/-- Modelled from the spec: `is_soft` is true only while an Ace is
currently counted as 11 (section 4.1). -/
def isSoft (cards : List Card) : Bool :=
  holdsAce cards && decide (hardTotal cards + 10 ≤ 21)

/-- Modelled from the spec: bust means value above 21 (section 4.1). -/
def isBustCards (cards : List Card) : Bool := decide (21 < handValue cards)

/- ===================== Shoe ===================== -/

/-- Modelled from the spec: the seeded pseudo-random generator driving
the shuffle (section 4.2 requires an explicit seeded generator; a
32-bit linear congruential step). -/
def lcgNext (s : Nat) : Nat := (1664525 * s + 1013904223) % 4294967296

/-- One step of the inside-out shuffle: pick an index j in
[0, length], put the new card at j and move the old occupant of j to
the end (appending when j is the length). -/
def insideOutStep (p : List Card × Nat) (c : Card) : List Card × Nat :=
  let s := lcgNext p.2
  let j := s % (p.1.length + 1)
  if j = p.1.length then (p.1 ++ [c], s)
  else ((p.1.set j c) ++ [p.1.getD j c], s)

/-- Modelled from the spec: a fair inside-out permutation driven by the
seeded generator (section 4.2). -/
def insideOut (cards : List Card) (seed : Nat) : List Card :=
  (cards.foldl insideOutStep ([], seed)).1

/-- One standard 52-card deck: every suit crossed with ranks 1..13. -/
def standardDeck : List Card :=
  [Suit.Hearts, Suit.Diamonds, Suit.Clubs, Suit.Spades].flatMap
    (fun s => (List.range 13).map (fun r => ⟨s, r + 1⟩))

/-- Modelled from the spec: the shoe is decks x 52 cards (section 4.2). -/
def multiDeck (decks : Nat) : List Card :=
  (List.range decks).flatMap (fun _ => standardDeck)

/-- Modelled from the spec: the freshly shuffled shoe for a seed. -/
def shoeFromSeed (decks : Nat) (seed : Nat) : List Card :=
  insideOut (multiDeck decks) seed

/- ===================== Game data model ===================== -/

/-- Modelled from the spec: the fixed configuration record of a game
(section 3, GameOptions), immutable for the lifetime of a `Game`.
Defaults follow the spec where it states them (blackjack pays 3:2,
insurance pays 2:1, six decks as in the section 8 scenario); the
penetration threshold is carried but drives no behaviour since the
engine never reshuffles on its own (section 4.2: callers reset). -/
structure GameOptions where
  numDecks : Nat := 6
  dealerHitsSoft17 : Bool := false
  blackjackNum : Nat := 3
  blackjackDen : Nat := 2
  doubleAfterSplit : Bool := true
  maxSplitDepth : Nat := 3
  surrenderAllowed : Bool := true
  insuranceAllowed : Bool := true
  insuranceNum : Nat := 2
  insuranceDen : Nat := 1
  splitAcesStand : Bool := true
  penetrationPercent : Nat := 75
deriving DecidableEq, Repr

/-- Modelled from the spec: terminal/active status of a hand
(section 3, Hand). -/
inductive HandStatus
  | Active
  | Stood
  | Bust
  | Blackjack
  | Surrendered
  | DoubledStood
deriving DecidableEq, Repr

/-- Modelled from the spec: a player is an id plus non-negative money
(section 3). -/
structure Player where
  id : Nat
  money : Nat
deriving DecidableEq, Repr

/-- Modelled from the spec: a bet-carrying sequence of cards with
split lineage and status (section 3, Hand). -/
structure Hand where
  playerId : Nat
  cards : List Card
  bet : Nat
  status : HandStatus
  fromSplit : Bool
  splitDepth : Nat
deriving DecidableEq, Repr

instance : Inhabited Hand := ⟨⟨0, [], 0, .Active, false, 0⟩⟩

/-- Modelled from the spec: the dealer hand with its hole-card flag
(section 3, Dealer hand). -/
structure DealerHand where
  cards : List Card
  holeRevealed : Bool
deriving DecidableEq, Repr

/-- Modelled from the spec: the round phases (section 4.3); `Dealing`
is transient and folded into `deal`. -/
inductive GamePhase
  | Idle
  | Betting
  | PlayerTurn
  | DealerTurn
  | RoundOver
deriving DecidableEq, Repr

/-- The state string the snapshot carries for each phase, as the web
UI compares it ("PlayerTurn", "DealerTurn", "RoundOver"). -/
def phaseName : GamePhase → String
  | .Idle => "Idle"
  | .Betting => "Betting"
  | .PlayerTurn => "PlayerTurn"
  | .DealerTurn => "DealerTurn"
  | .RoundOver => "RoundOver"

/-- The status string the snapshot carries for a hand. -/
def statusName : HandStatus → String
  | .Active => "Active"
  | .Stood => "Stood"
  | .Bust => "Bust"
  | .Blackjack => "Blackjack"
  | .Surrendered => "Surrendered"
  | .DoubledStood => "DoubledStood"

/-- Modelled from the spec: per-hand outcome at showdown (section 3,
RoundResult). -/
inductive Outcome
  | Win
  | Lose
  | Push
  | Blackjack
  | Bust
  | Surrender
deriving DecidableEq, Repr

/-- Modelled from the spec: per-hand showdown record (section 6,
RoundResult layout). -/
structure HandResult where
  handIndex : Nat
  outcome : Outcome
  bet : Nat
  payout : Nat
  playerValue : Nat
  dealerValue : Nat
deriving DecidableEq, Repr

/-- Modelled from the spec: per-player showdown record (section 6). -/
structure PlayerResult where
  playerId : Nat
  hands : List HandResult
  totalPayout : Nat
  net : Int
  insuranceBet : Nat
  insurancePayout : Nat
deriving DecidableEq, Repr

/-- Modelled from the spec: the round-level showdown record
(section 6). -/
structure RoundResult where
  players : List PlayerResult
  dealerValue : Nat
  dealerBust : Bool
  dealerBlackjack : Bool
deriving DecidableEq, Repr

/-- Modelled from the spec: the errors of section 7. -/
inductive GameError
  | InvalidPhase
  | NotYourTurn
  | InvalidHandIndex
  | HandNotActive
  | InsufficientFunds
  | InvalidBetAmount
  | SplitNotAllowed
  | DoubleNotAllowed
  | SurrenderNotAllowed
  | ShoeExhausted
  | InsuranceNotOffered
  | InsuranceAlreadyDecided
deriving DecidableEq, Repr

/-- Modelled from the spec: the whole engine state - configuration,
shoe, players, phase, the active round's hands and dealer hand, the
insurance side bet (a single slot, matching the id-less
`take_insurance()` surface of section 6 and the single-player wasm
snapshot), and the recorded RoundResult (section 3). -/
structure Game where
  options : GameOptions
  seed : Nat
  shoe : List Card
  players : List Player
  nextPlayerId : Nat
  phase : GamePhase
  hands : List Hand
  dealer : DealerHand
  turn : Option (Nat × Nat)
  insuranceOffered : Bool
  insuranceBet : Option Nat
  insuranceDecided : Bool
  insurancePayout : Nat
  roundResult : Option RoundResult
deriving DecidableEq, Repr

/-- Modelled from the spec: a fresh engine - shoe shuffled from the
seed, no players, `Idle` (sections 3, 4.2, 4.3). -/
def Game.new (opts : GameOptions) (seed : Nat) : Game :=
  { options := opts
    seed := seed
    shoe := shoeFromSeed opts.numDecks seed
    players := []
    nextPlayerId := 0
    phase := .Idle
    hands := []
    dealer := ⟨[], false⟩
    turn := none
    insuranceOffered := false
    insuranceBet := none
    insuranceDecided := false
    insurancePayout := 0
    roundResult := none }

/- ===================== Engine helpers ===================== -/

/-- Modelled from the spec: classification of a hand as Blackjack -
exactly two cards, value 21, and not the product of a split
(section 4.1). -/
def Hand.isBlackjack (h : Hand) : Bool :=
  h.cards.length == 2 && handValue h.cards == 21 && !h.fromSplit

/-- Modelled from the spec: the dealer has a natural when the two
dealt cards total 21 (section 4.1; the dealer hand has no split). -/
def dealerNatural (cards : List Card) : Bool :=
  cards.length == 2 && handValue cards == 21

/-- Modelled from the spec: drawing removes and returns the next card
and fails with `ShoeExhausted` on an empty shoe (section 4.2). -/
def drawOne (shoe : List Card) : Except GameError (Card × List Card) :=
  match shoe with
  | [] => .error .ShoeExhausted
  | c :: rest => .ok (c, rest)

/-- The hands a player owns for the round, in creation order. -/
def playerHands (hands : List Hand) (pid : Nat) : List Hand :=
  hands.filter (fun h => h.playerId == pid)

/-- Index into the global hand list of the idx-th hand owned by a
player (hand indices are per player, in creation order). -/
def globalHandIndex : List Hand → Nat → Nat → Option Nat
  | [], _, _ => none
  | h :: rest, pid, idx =>
    if h.playerId = pid then
      if idx = 0 then some 0
      else (globalHandIndex rest pid (idx - 1)).map (· + 1)
    else (globalHandIndex rest pid idx).map (· + 1)

/-- Modelled from the spec: the deterministic turn order - players in
join order and, within a player, hands in creation order; the next
turn is the first still-`Active` hand (section 4.3). -/
def computeTurn (players : List Player) (hands : List Hand) :
    Option (Nat × Nat) :=
  match players with
  | [] => none
  | p :: rest =>
    match (playerHands hands p.id).findIdx? (fun h => h.status == .Active) with
    | some i => some (p.id, i)
    | none => computeTurn rest hands

/-- Modelled from the spec: after a player action the phase advances
to the next unresolved hand, or to `DealerTurn` when none remain
(section 4.3). -/
def refreshTurn (g : Game) : Game :=
  match computeTurn g.players g.hands with
  | some t => { g with turn := some t, phase := .PlayerTurn }
  | none => { g with turn := none, phase := .DealerTurn }

/-- Set one player's money. -/
def setMoney (players : List Player) (pid : Nat) (m : Nat) : List Player :=
  players.map (fun p => if p.id == pid then { p with money := m } else p)

/- ===================== Engine actions ===================== -/

/-- Modelled from the spec: `join(money) -> player_id`, legal in
`Idle`, assigning a unique incrementing id (sections 4.3, 6). -/
def Game.joinAct (g : Game) (money : Nat) : Except GameError (Nat × Game) :=
  if g.phase ≠ .Idle then .error .InvalidPhase
  else .ok (g.nextPlayerId,
    { g with players := g.players ++ [⟨g.nextPlayerId, money⟩]
             nextPlayerId := g.nextPlayerId + 1 })

/-- Modelled from the spec: `reset(seed)` rebuilds the engine with a
fresh shoe shuffled from the new seed (sections 3, 6). -/
def Game.resetAct (g : Game) (seed : Nat) : Game :=
  Game.new g.options seed

/-- Modelled from the spec: `start_betting()` enters `Betting` from
`Idle` (section 4.3). -/
def Game.startBettingAct (g : Game) : Except GameError Game :=
  if g.phase = .Idle then .ok { g with phase := .Betting }
  else .error .InvalidPhase

/-- Modelled from the spec: `bet(player_id, amount)`, only in
`Betting`, one bet per joined player, amount positive and at most the
player's money; the amount is escrowed out of money and the player's
first hand placeholder is created (section 4.4). -/
def Game.betAct (g : Game) (pid : Nat) (amount : Nat) :
    Except GameError Game :=
  if g.phase ≠ .Betting then .error .InvalidPhase
  else match g.players.find? (fun p => p.id == pid) with
  | none => .error .NotYourTurn
  | some p =>
    if g.hands.any (fun h => h.playerId == pid) then .error .InvalidPhase
    else if amount = 0 then .error .InvalidBetAmount
    else if p.money < amount then .error .InsufficientFunds
    else .ok { g with
      players := setMoney g.players pid (p.money - amount)
      hands := g.hands ++ [⟨pid, [], amount, .Active, false, 0⟩] }

/-- Deal two cards into each hand in order, threading the shoe. -/
def dealToHands : List Hand → List Card →
    Except GameError (List Hand × List Card)
  | [], shoe => .ok ([], shoe)
  | h :: rest, shoe => do
    let (c1, s1) ← drawOne shoe
    let (c2, s2) ← drawOne s1
    let (hs, s3) ← dealToHands rest s2
    pure ({ h with cards := [c1, c2] } :: hs, s3)

/-- Modelled from the spec: `deal()` - two cards to every bet-placing
player's first hand, then two to the dealer with the second face-down;
flags insurance when the dealer's up-card is an Ace and insurance is
offered; naturals leave `PlayerTurn` scope immediately (their payout
is resolved at showdown); then the first unresolved hand (if any) is
on turn, otherwise the phase is `DealerTurn` (section 4.3). -/
def Game.dealAct (g : Game) : Except GameError Game := do
  if g.phase ≠ .Betting then throw .InvalidPhase
  if g.hands.isEmpty then throw .InvalidPhase
  let (hs, s1) ← dealToHands g.hands g.shoe
  let (d1, s2) ← drawOne s1
  let (d2, s3) ← drawOne s2
  let hs2 := hs.map (fun h =>
    if h.isBlackjack then { h with status := .Blackjack } else h)
  let offered := d1.rank == 1 && g.options.insuranceAllowed
  pure (refreshTurn { g with
    shoe := s3
    hands := hs2
    dealer := ⟨[d1, d2], false⟩
    insuranceOffered := offered
    insuranceBet := none
    insuranceDecided := false
    insurancePayout := 0 })

/-- Shared validation of a player action targeting a hand: the phase
must be `PlayerTurn`, the index must exist for the on-turn player,
the action must target the hand whose turn it is, and the hand must
still be `Active` (section 4.4, checks 1-3). Returns the on-turn
player, the hand and its index in the global hand list. -/
def Game.targetHand (g : Game) (idx : Nat) :
    Except GameError (Player × Hand × Nat) :=
  if g.phase ≠ .PlayerTurn then .error .InvalidPhase
  else match g.turn with
  | none => .error .NotYourTurn
  | some (pid, tidx) =>
    match g.players.find? (fun p => p.id == pid) with
    | none => .error .NotYourTurn
    | some p =>
      if idx ≥ (playerHands g.hands pid).length then .error .InvalidHandIndex
      else if idx ≠ tidx then .error .NotYourTurn
      else match globalHandIndex g.hands pid idx with
      | none => .error .InvalidHandIndex
      | some gi =>
        let h := g.hands.getD gi default
        if h.status ≠ .Active then .error .HandNotActive
        else .ok (p, h, gi)

/-- Modelled from the spec: `hit(hand_index)` draws one card into the
active hand, recomputes the value, and on bust sets the status to
`Bust`; the turn auto-advances (section 4.4). -/
def Game.hitAct (g : Game) (idx : Nat) : Except GameError Game := do
  let (_, h, gi) ← g.targetHand idx
  let (c, shoe') ← drawOne g.shoe
  let cards' := h.cards ++ [c]
  let status' : HandStatus := if 21 < handValue cards' then .Bust else .Active
  pure (refreshTurn { g with
    shoe := shoe'
    hands := g.hands.set gi { h with cards := cards', status := status' } })

/-- Modelled from the spec: `stand(hand_index)` sets the status to
`Stood` and advances the turn (section 4.4). -/
def Game.standAct (g : Game) (idx : Nat) : Except GameError Game := do
  let (_, h, gi) ← g.targetHand idx
  pure (refreshTurn { g with
    hands := g.hands.set gi { h with status := .Stood } })

/-- Modelled from the spec: `double_down(hand_index)` - two-card hand,
double-after-split gated by configuration, matching funds required;
doubles the bet, draws exactly one card, then `DoubledStood` unless
bust (section 4.4). -/
def Game.doubleDownAct (g : Game) (idx : Nat) : Except GameError Game := do
  let (p, h, gi) ← g.targetHand idx
  if h.cards.length ≠ 2 then throw .DoubleNotAllowed
  if h.fromSplit ∧ ¬g.options.doubleAfterSplit then throw .DoubleNotAllowed
  if p.money < h.bet then throw .InsufficientFunds
  let (c, shoe') ← drawOne g.shoe
  let cards' := h.cards ++ [c]
  let status' : HandStatus :=
    if 21 < handValue cards' then .Bust else .DoubledStood
  pure (refreshTurn { g with
    shoe := shoe'
    players := setMoney g.players p.id (p.money - h.bet)
    hands := g.hands.set gi
      { h with cards := cards', bet := 2 * h.bet, status := status' } })

/-- Modelled from the spec: `split(hand_index)` - two cards of equal
rank-value, depth below the configured maximum, funds matching the
original bet; produces two one-card hands appended in place of the
original, each immediately dealt one more card; split Aces receive
exactly one card and are immediately stood when so configured
(section 4.4). -/
def Game.splitAct (g : Game) (idx : Nat) : Except GameError Game := do
  let (p, h, gi) ← g.targetHand idx
  match h.cards with
  | [c1, c2] =>
    if cardPip c1.rank ≠ cardPip c2.rank then throw .SplitNotAllowed
    if h.splitDepth ≥ g.options.maxSplitDepth then throw .SplitNotAllowed
    if p.money < h.bet then throw .InsufficientFunds
    let (d1, s1) ← drawOne g.shoe
    let (d2, s2) ← drawOne s1
    let st : HandStatus :=
      if c1.rank = 1 ∧ g.options.splitAcesStand then .Stood else .Active
    let h1 : Hand := { h with cards := [c1, d1], status := st
                              fromSplit := true, splitDepth := h.splitDepth + 1 }
    let h2 : Hand := { h with cards := [c2, d2], status := st
                              fromSplit := true, splitDepth := h.splitDepth + 1 }
    pure (refreshTurn { g with
      shoe := s2
      players := setMoney g.players p.id (p.money - h.bet)
      hands := g.hands.take gi ++ [h1, h2] ++ g.hands.drop (gi + 1) })
  | _ => throw .SplitNotAllowed

/-- Modelled from the spec: `surrender(hand_index) -> refunded_amount`
- only on the first decision of an unsplit two-card hand and only when
enabled; returns half the bet to money immediately and sets the status
to `Surrendered` (section 4.4). -/
def Game.surrenderAct (g : Game) (idx : Nat) :
    Except GameError (Nat × Game) := do
  let (p, h, gi) ← g.targetHand idx
  if ¬g.options.surrenderAllowed then throw .SurrenderNotAllowed
  if h.cards.length ≠ 2 ∨ h.fromSplit then throw .SurrenderNotAllowed
  let refund := h.bet / 2
  pure (refund, refreshTurn { g with
    players := setMoney g.players p.id (p.money + refund)
    hands := g.hands.set gi { h with status := .Surrendered } })

/-- Modelled from the spec: `take_insurance() -> stake` - legal only
while the insurance window is open and not yet decided; the stake is
half the original bet, escrowed out of money (sections 3, 4.3, 6; the
surface carries no player id, so the side bet belongs to the first
joined player, matching the single-player wasm view). -/
def Game.takeInsuranceAct (g : Game) : Except GameError (Nat × Game) :=
  if ¬g.insuranceOffered then .error .InsuranceNotOffered
  else if g.insuranceDecided then .error .InsuranceAlreadyDecided
  else match g.players.head? with
  | none => .error .InsuranceNotOffered
  | some p =>
    let stake := (((playerHands g.hands p.id).head?).map (·.bet)).getD 0 / 2
    if p.money < stake then .error .InsufficientFunds
    else .ok (stake, { g with
      players := setMoney g.players p.id (p.money - stake)
      insuranceBet := some stake
      insuranceDecided := true })

/-- Modelled from the spec: `decline_insurance()` - closes this
player's insurance decision without a stake (sections 4.3, 6). -/
def Game.declineInsuranceAct (g : Game) : Except GameError Game :=
  if ¬g.insuranceOffered then .error .InsuranceNotOffered
  else if g.insuranceDecided then .error .InsuranceAlreadyDecided
  else .ok { g with insuranceDecided := true }

/-- Modelled from the spec: `finish_insurance() -> dealer_had_blackjack`
- the barrier closing the insurance window; when the dealer has a
natural the hole card is revealed, the insurance side bet pays
immediately at the configured ratio (stake returned plus winnings)
and the round moves to `RoundOver` (sections 4.3, 9 - immediate
settlement on dealer Blackjack). -/
def Game.finishInsuranceAct (g : Game) : Except GameError (Bool × Game) :=
  if ¬g.insuranceOffered then .error .InsuranceNotOffered
  else if dealerNatural g.dealer.cards then
    let pay := match g.insuranceBet with
      | some b => b + b * g.options.insuranceNum / g.options.insuranceDen
      | none => 0
    let players' := match g.players.head? with
      | some p => setMoney g.players p.id (p.money + pay)
      | none => g.players
    .ok (true, { g with
      players := players'
      insuranceOffered := false
      insurancePayout := pay
      dealer := { g.dealer with holeRevealed := true }
      phase := .RoundOver
      turn := none })
  else .ok (false, { g with insuranceOffered := false })

/-- Modelled from the spec: should the dealer keep drawing - below 17,
or a soft 17 when the hit-soft-17 option is set (section 4.3). -/
def dealerShouldHit (opts : GameOptions) (cards : List Card) : Bool :=
  decide (handValue cards < 17) ||
    (handValue cards == 17 && isSoft cards && opts.dealerHitsSoft17)

/-- Modelled from the spec: the dealer's draw loop, threading the
shoe; an empty shoe while the dealer must still hit surfaces
`ShoeExhausted` (sections 4.2, 4.3). -/
def dealerDraw (opts : GameOptions) :
    List Card → List Card → Except GameError (List Card × List Card)
  | [], cards =>
    if dealerShouldHit opts cards then .error .ShoeExhausted
    else .ok (cards, [])
  | c :: rest, cards =>
    if dealerShouldHit opts cards then dealerDraw opts rest (cards ++ [c])
    else .ok (cards, c :: rest)

/-- Modelled from the spec: `dealer_play()` - legal in `DealerTurn`;
reveals the hole card, draws to the configured stopping rule and moves
to `RoundOver` (section 4.3). -/
def Game.dealerPlayAct (g : Game) : Except GameError Game := do
  if g.phase ≠ .DealerTurn then throw .InvalidPhase
  let (final, shoe') ← dealerDraw g.options g.shoe g.dealer.cards
  pure { g with
    dealer := ⟨final, true⟩
    shoe := shoe'
    phase := .RoundOver
    turn := none }

/-- Modelled from the spec: outcome and payout of one hand against the
dealer's final value (section 4.5): surrendered hands are skipped
(their half-bet refund was paid at surrender time); a busted hand
loses its bet; against a dealer bust or a lower dealer value the hand
wins, paid 2x the bet, or bet x (1 + ratio) for a Blackjack; equal
values push (bet returned); otherwise the hand loses. -/
def settleHand (opts : GameOptions) (h : Hand) (dv : Nat) (dBust : Bool) :
    Outcome × Nat :=
  if h.status = .Surrendered then (.Surrender, 0)
  else
    let pv := handValue h.cards
    if 21 < pv then (.Bust, 0)
    else if dBust then
      if h.isBlackjack then
        (.Blackjack, h.bet + h.bet * opts.blackjackNum / opts.blackjackDen)
      else (.Win, 2 * h.bet)
    else if dv < pv then
      if h.isBlackjack then
        (.Blackjack, h.bet + h.bet * opts.blackjackNum / opts.blackjackDen)
      else (.Win, 2 * h.bet)
    else if pv = dv then (.Push, h.bet)
    else (.Lose, 0)

/-- The per-player showdown record: every hand settled in creation
order; the insurance side bet (held by the first joined player, see
`Game.takeInsuranceAct`) is reported from the amounts already settled
at `finish_insurance`. -/
def playerShowdown (g : Game) (dv : Nat) (dBust : Bool) (first : Bool)
    (p : Player) : PlayerResult :=
  let hs := playerHands g.hands p.id
  let recs := hs.enum.map (fun pr =>
    let (oc, pay) := settleHand g.options pr.2 dv dBust
    HandResult.mk pr.1 oc pr.2.bet pay (handValue pr.2.cards) dv)
  let totalPayout := (recs.map (·.payout)).sum
  let surrBack := ((hs.filter (fun h => h.status == .Surrendered)).map
    (fun h => h.bet / 2)).sum
  let insBet := if first then (g.insuranceBet.getD 0) else 0
  let insPay := if first then g.insurancePayout else 0
  { playerId := p.id
    hands := recs
    totalPayout := totalPayout
    net := ((totalPayout + surrBack + insPay : Nat) : Int) -
      (((hs.map (·.bet)).sum + insBet : Nat) : Int)
    insuranceBet := insBet
    insurancePayout := insPay }

/-- Modelled from the spec: the whole RoundResult computed against the
dealer's final value (section 4.5). -/
def computeRound (g : Game) : RoundResult :=
  let dv := handValue g.dealer.cards
  let dBust := decide (21 < dv)
  ⟨(g.players.enum).map (fun pr =>
      playerShowdown g dv dBust (pr.1 == 0) pr.2),
   dv, dBust, dealerNatural g.dealer.cards⟩

/-- Modelled from the spec: all payouts credit back to the players'
money in one batch (section 4.5). -/
def creditPlayers (players : List Player) (r : RoundResult) : List Player :=
  players.map (fun p =>
    match r.players.find? (fun q => q.playerId == p.id) with
    | some q => { p with money := p.money + q.totalPayout }
    | none => p)

/-- Modelled from the spec: `showdown() -> RoundResult` - idempotent:
a recorded result is returned unchanged without touching money;
otherwise, legal only in `RoundOver`, it settles every hand against
the dealer's final value, credits all payouts to the players in one
batch and records the result (sections 2, 4.5, 8). -/
def Game.showdownAct (g : Game) : Except GameError (RoundResult × Game) :=
  match g.roundResult with
  | some r => .ok (r, g)
  | none =>
    if g.phase ≠ .RoundOver then .error .InvalidPhase
    else .ok (computeRound g,
      { g with players := creditPlayers g.players (computeRound g)
               roundResult := some (computeRound g) })

/-- Modelled from the spec: `clear_round()` discards all hands, the
dealer hand, the insurance side bet and the RoundResult and returns to
`Betting`-ready `Idle`, preserving player money and ids (section 4.3,
`RoundOver`). -/
def Game.clearRoundAct (g : Game) : Except GameError Game :=
  if g.phase ≠ .RoundOver then .error .InvalidPhase
  else .ok { g with
    phase := .Idle
    hands := []
    dealer := ⟨[], false⟩
    turn := none
    insuranceOffered := false
    insuranceBet := none
    insuranceDecided := false
    insurancePayout := 0
    roundResult := none }

/- ===================== Uniform action step ===================== -/

/-- The engine's action surface (section 6); `bet` carries the player
id and the amount as in the core API. -/
inductive GameAction
  | join (money : Nat)
  | reset (seed : Nat)
  | startBetting
  | bet (playerId : Nat) (amount : Nat)
  | deal
  | hit (handIndex : Nat)
  | stand (handIndex : Nat)
  | doubleDown (handIndex : Nat)
  | split (handIndex : Nat)
  | surrender (handIndex : Nat)
  | takeInsurance
  | declineInsurance
  | finishInsurance
  | dealerPlay
  | showdown
  | clearRound
deriving DecidableEq, Repr

/-- Lift a fallible action into the uniform step form: the state after
a failed call is the state before it. -/
def liftStep (g : Game) : Except GameError Game → Game × Option GameError
  | .ok g' => (g', none)
  | .error e => (g, some e)

/-- Lift a fallible value-returning action, discarding the value. -/
def liftStepV {α : Type} (g : Game) :
    Except GameError (α × Game) → Game × Option GameError
  | .ok (_, g') => (g', none)
  | .error e => (g, some e)

/-- One engine call: the resulting state plus the signalled error, if
any (validate-then-apply: per section 7 a failed call changes
nothing). -/
def Game.applyAction (g : Game) (a : GameAction) : Game × Option GameError :=
  match a with
  | .join m => liftStepV g (g.joinAct m)
  | .reset s => (g.resetAct s, none)
  | .startBetting => liftStep g g.startBettingAct
  | .bet pid amount => liftStep g (g.betAct pid amount)
  | .deal => liftStep g g.dealAct
  | .hit i => liftStep g (g.hitAct i)
  | .stand i => liftStep g (g.standAct i)
  | .doubleDown i => liftStep g (g.doubleDownAct i)
  | .split i => liftStep g (g.splitAct i)
  | .surrender i => liftStepV g (g.surrenderAct i)
  | .takeInsurance => liftStepV g g.takeInsuranceAct
  | .declineInsurance => liftStep g g.declineInsuranceAct
  | .finishInsurance => liftStepV g g.finishInsuranceAct
  | .dealerPlay => liftStep g g.dealerPlayAct
  | .showdown => liftStepV g g.showdownAct
  | .clearRound => liftStep g g.clearRoundAct

/- ===================== Snapshot projection ===================== -/

/-- The dealer part of a snapshot (`JsDealer` in App.tsx): the cards
array may hold nulls. -/
structure DealerView where
  cards : List (Option Card)
  value : Nat
  visible_value : Nat
  is_soft : Bool
  is_blackjack : Bool
  is_bust : Bool
  hole_revealed : Bool
deriving DecidableEq, Repr

/-- One hand in a snapshot (`JsHand` in App.tsx). -/
structure HandView where
  index : Nat
  cards : List Card
  value : Nat
  is_soft : Bool
  status : String
  bet : Nat
  from_split : Bool
  can_split : Bool
deriving DecidableEq, Repr

/-- The current-turn pointer in a snapshot (`JsTurn` in App.tsx). -/
structure TurnView where
  player_id : Nat
  hand_index : Nat
deriving DecidableEq, Repr

/-- The read-only snapshot (`Snapshot` in App.tsx / section 6). -/
structure Snapshot where
  state : String
  player_id : Option Nat
  money : Option Nat
  bet : Option Nat
  hands : List HandView
  dealer : DealerView
  current_turn : Option TurnView
  insurance_offered : Bool
  insurance_bet : Option Nat
  cards_remaining : Nat
deriving DecidableEq, Repr

/-- Modelled from the spec: whether a hand may be split right now -
two cards of equal rank-value, depth below the maximum, funds to match
the bet (section 4.4). -/
def canSplitNow (opts : GameOptions) (h : Hand) (money : Nat) : Bool :=
  (match h.cards with
   | [c1, c2] => cardPip c1.rank == cardPip c2.rank
   | _ => false) &&
  decide (h.splitDepth < opts.maxSplitDepth) &&
  decide (h.bet ≤ money) && (h.status == .Active)

/-- Modelled from the spec: the dealer projection - while
`hole_revealed` is false every card after the up-card is nulled in the
snapshot; this is the single snapshot-construction path, so the
masking rule of section 6 holds for every snapshot (section 9). -/
def dealerView (d : DealerHand) : DealerView :=
  { cards :=
      if d.holeRevealed then d.cards.map some
      else match d.cards with
        | [] => []
        | c :: rest => some c :: rest.map (fun _ => none)
    value := handValue d.cards
    visible_value :=
      if d.holeRevealed then handValue d.cards
      else handValue (d.cards.take 1)
    is_soft := isSoft d.cards
    is_blackjack := dealerNatural d.cards
    is_bust := decide (21 < handValue d.cards)
    hole_revealed := d.holeRevealed }

/-- Modelled from the spec: the snapshot built fresh on demand -
the single-player projection the wasm layer serializes for the web UI
(section 6): the first joined player's id, money and current bet, that
player's hands, the masked dealer, the turn pointer, the insurance
window and the remaining-card count. -/
def Game.snapshot (g : Game) : Snapshot :=
  let p? := g.players.head?
  let phands := match p? with
    | some p => playerHands g.hands p.id
    | none => []
  { state := phaseName g.phase
    player_id := p?.map (·.id)
    money := p?.map (·.money)
    bet := phands.head?.map (·.bet)
    hands := phands.enum.map (fun pr =>
      { index := pr.1
        cards := pr.2.cards
        value := handValue pr.2.cards
        is_soft := isSoft pr.2.cards
        status := statusName pr.2.status
        bet := pr.2.bet
        from_split := pr.2.fromSplit
        can_split := canSplitNow g.options pr.2
          ((p?.map (·.money)).getD 0) })
    dealer := dealerView g.dealer
    current_turn := g.turn.map (fun t => ⟨t.1, t.2⟩)
    insurance_offered := g.insuranceOffered
    insurance_bet := g.insuranceBet
    cards_remaining := g.shoe.length }

/- ===================== Determinism runs ===================== -/

/-- A fresh engine driven through a whole action sequence, keeping
only the final state. -/
def runActions (opts : GameOptions) (seed : Nat)
    (acts : List GameAction) : Game :=
  acts.foldl (fun g a => (g.applyAction a).1) (Game.new opts seed)

/-- The snapshot taken after every action of a sequence, from a fresh
engine. -/
def runSnapshots (opts : GameOptions) (seed : Nat) :
    Game → List GameAction → List Snapshot
  | _, [] => []
  | g, a :: rest =>
    let g' := (g.applyAction a).1
    g'.snapshot :: runSnapshots opts seed g' rest

/-- All snapshots an engine produces along an action sequence. -/
def snapshotTrace (opts : GameOptions) (seed : Nat)
    (acts : List GameAction) : List Snapshot :=
  runSnapshots opts seed (Game.new opts seed) acts

/- ===================== The web UI model (App.tsx) ===================== -/

/-- The React component state of `App` that the handlers touch:
the engine instance, the displayed snapshot, the displayed round
result, the displayed error, and the two number inputs. -/
structure UIState where
  game : Game
  snapshot : Option Snapshot
  result : Option RoundResult
  uiError : Option GameError
  buyIn : Nat
  betInput : Nat
deriving DecidableEq, Repr

/-- Run the body of a `withGame` callback: the engine calls in order,
stopping at the first thrown error (the failed call is still an
invocation). Returns the engine state, the error if one was thrown,
and the list of calls that were invoked. -/
def runCalls : Game → List GameAction →
    Game × Option GameError × List GameAction
  | g, [] => (g, none, [])
  | g, a :: rest =>
    match g.applyAction a with
    | (g', some e) => (g', some e, [a])
    | (g', none) =>
      let (g'', e, tr) := runCalls g' rest
      (g'', e, a :: tr)

/-- The result of `autoResolveIfNeeded`: the engine, the snapshot the
component displays, the displayed result, the error that escaped (to
be caught by `withGame`), and the engine calls made. -/
structure AutoOut where
  game : Game
  snap : Snapshot
  result : Option RoundResult
  err : Option GameError
  calls : List GameAction
deriving DecidableEq, Repr

/-- `autoResolveIfNeeded` from App.tsx lines 140-155: when the
refreshed snapshot is in `DealerTurn` the app calls `dealer_play()`
and refreshes; then, when the (possibly re-refreshed) snapshot is in
`RoundOver` and `hasResult` is false, it calls `showdown()`, records
the result and refreshes.  A throw escapes to `withGame`'s catch, so
the steps after it do not run and the snapshot is not refreshed past
the failure. -/
def autoResolveIfNeeded (g : Game) (current : Snapshot) (hasResult : Bool)
    (prev : Option RoundResult) : AutoOut :=
  if current.state = "DealerTurn" then
    match g.applyAction .dealerPlay with
    | (g1, some e) => ⟨g1, current, prev, some e, [.dealerPlay]⟩
    | (g1, none) =>
      let snap1 := g1.snapshot
      if snap1.state = "RoundOver" ∧ hasResult = false then
        match g1.showdownAct with
        | .error e => ⟨g1, snap1, prev, some e, [.dealerPlay, .showdown]⟩
        | .ok (r, g2) => ⟨g2, g2.snapshot, some r, none, [.dealerPlay, .showdown]⟩
      else ⟨g1, snap1, prev, none, [.dealerPlay]⟩
  else
    if current.state = "RoundOver" ∧ hasResult = false then
      match g.showdownAct with
      | .error e => ⟨g, current, prev, some e, [.showdown]⟩
      | .ok (r, g2) => ⟨g2, g2.snapshot, some r, none, [.showdown]⟩
    else ⟨g, current, prev, none, []⟩

/-- `withGame` from App.tsx lines 157-172, for a callback that runs
the given engine calls in order and, when `clearsResult` is set, ends
with `setResult(null)` (as in `handleJoin`, `handleBetAndDeal` and
`handleNextRound`).  On a throw the error is recorded and the
displayed snapshot is NOT refreshed; on success the error is cleared,
the snapshot refreshed, and - unless `autoResolve` is disabled -
`autoResolveIfNeeded` runs with the refreshed snapshot and the
`result !== null` value captured at entry.  Also returns the list of
engine calls invoked. -/
def withGameRun (ui : UIState) (acts : List GameAction)
    (autoResolve : Bool) (clearsResult : Bool) :
    UIState × List GameAction :=
  let rc := runCalls ui.game acts
  match rc.2.1 with
  | some e => ({ ui with game := rc.1, uiError := some e }, rc.2.2)
  | none =>
    let g1 := rc.1
    let r1 : Option RoundResult := if clearsResult then none else ui.result
    let snap := g1.snapshot
    if autoResolve then
      let ao := autoResolveIfNeeded g1 snap ui.result.isSome r1
      ({ ui with game := ao.game, snapshot := some ao.snap,
                 result := ao.result, uiError := ao.err },
       rc.2.2 ++ ao.calls)
    else
      ({ ui with game := g1, snapshot := some snap,
                 result := r1, uiError := none }, rc.2.2)

/-- The player id the wasm binding supplies for its id-less `bet`: the
joined player of the single-player wasm game (the first join). -/
def currentPlayerId (g : Game) : Nat :=
  ((g.players.head?).map (·.id)).getD 0

/-- `handleBetAndDeal` from App.tsx lines 194-200: one `withGame`
callback running `bet(bet)` then `deal()` then `setResult(null)`; the
wasm `bet(amount)` resolves to the core bet of the joined player. -/
def handleBetAndDeal (ui : UIState) : UIState × List GameAction :=
  withGameRun ui [.bet (currentPlayerId ui.game) ui.betInput, .deal] true true

/-- `handleShowdown` from App.tsx lines 219-225: a no-op while a
result is already displayed; otherwise runs `showdown()`, records its
result, and refreshes - with autoResolve disabled. -/
def handleShowdown (ui : UIState) : UIState × List GameAction :=
  if ui.result.isSome then (ui, [])
  else
    match ui.game.showdownAct with
    | .ok (r, g') =>
      ({ ui with game := g', result := some r, uiError := none,
                 snapshot := some g'.snapshot }, [.showdown])
    | .error e => ({ ui with uiError := some e }, [.showdown])

/-- `handleNextRound` from App.tsx lines 227-233: one `withGame`
callback running `clear_round()` then `start_betting()` then
`setResult(null)`. -/
def handleNextRound (ui : UIState) : UIState × List GameAction :=
  withGameRun ui [.clearRound, .startBetting] true true

/-- The `autoResolveIfNeeded` invocation `withGame` performs after a
successful callback: refreshed snapshot, the `result !== null` value
captured at entry, and the result value the callback left displayed. -/
def wgAuto (ui : UIState) (acts : List GameAction) (clears : Bool) : AutoOut :=
  autoResolveIfNeeded (runCalls ui.game acts).1
    (Game.snapshot (runCalls ui.game acts).1) ui.result.isSome
    (if clears then none else ui.result)

/- ===================== Decidability helper ===================== -/

/-- Decidable equality for `Except`, so concrete engine outcomes can
be checked by evaluation. -/
def exceptDecEq {ε α : Type} [DecidableEq ε] [DecidableEq α] :
    DecidableEq (Except ε α)
  | .error a, .error b =>
    if h : a = b then .isTrue (by rw [h])
    else .isFalse (by intro hc; cases hc; exact h rfl)
  | .error _, .ok _ => .isFalse (by intro hc; cases hc)
  | .ok _, .error _ => .isFalse (by intro hc; cases hc)
  | .ok a, .ok b =>
    if h : a = b then .isTrue (by rw [h])
    else .isFalse (by intro hc; cases hc; exact h rfl)

instance {ε α : Type} [DecidableEq ε] [DecidableEq α] :
    DecidableEq (Except ε α) := exceptDecEq

/- ===================== Concrete demonstration states ===================== -/

/-- A small configuration (one deck) used for the concrete runs. -/
def demoOptions : GameOptions := { numDecks := 1 }

/-- A full demonstration action sequence: join, bet 50, deal, stand,
dealer play. -/
def demoActs : List GameAction :=
  [.join 1000, .startBetting, .bet 0 50, .deal, .stand 0, .dealerPlay]

/-- The engine right after the deal (seed 1, one deck): the player
holds a soft 18, the dealer shows a 4 with its hole card hidden. -/
def demoDealt : Game :=
  runActions demoOptions 1 [.join 1000, .startBetting, .bet 0 50, .deal]

/-- The engine after the full demonstration round, in `RoundOver`
with no showdown recorded yet. -/
def demoRoundOver : Game := runActions demoOptions 1 demoActs

/-- The recorded result and settled engine of the demonstration
round's showdown. -/
def demoSettled : RoundResult × Game :=
  match demoRoundOver.showdownAct with
  | .ok p => p
  | .error _ => (⟨[], 0, false, false⟩, demoRoundOver)

/-- The UI right after the deal of the demonstration round. -/
def demoUIDealt : UIState :=
  { game := demoDealt
    snapshot := some demoDealt.snapshot
    result := none
    uiError := none
    buyIn := 1000
    betInput := 50 }

/-- The UI once the demonstration round's showdown has been recorded
and displayed. -/
def demoUIWithResult : UIState :=
  { game := demoSettled.2
    snapshot := some demoSettled.2.snapshot
    result := some demoSettled.1
    uiError := none
    buyIn := 1000
    betInput := 50 }

/-- The engine state after `stand` in the demonstration round (the
state whose refreshed snapshot `withGame` hands to
`autoResolveIfNeeded`). -/
def demoStandGame : Game := (runCalls demoUIDealt.game [.stand 0]).1

/-- The engine after the auto-resolved `dealer_play`. -/
def demoDealerPlayed : Game := (demoStandGame.applyAction .dealerPlay).1

/-- The result and engine of the auto-resolved showdown. -/
def demoAutoFinal : RoundResult × Game :=
  match demoDealerPlayed.showdownAct with
  | .ok p => p
  | .error _ => (⟨[], 0, false, false⟩, demoDealerPlayed)

/-- A reachable engine state sitting in `Betting` with one joined
player (100 money) and an exhausted shoe - the situation the spec
reserves `ShoeExhausted` for (section 4.2: exhaustion is surfaced to
the caller, who must reset). -/
def emptyShoeBetting : Game :=
  { options := demoOptions
    seed := 0
    shoe := []
    players := [⟨0, 100⟩]
    nextPlayerId := 1
    phase := .Betting
    hands := []
    dealer := ⟨[], false⟩
    turn := none
    insuranceOffered := false
    insuranceBet := none
    insuranceDecided := false
    insurancePayout := 0
    roundResult := none }

/-- The UI displaying `emptyShoeBetting`, before any bet. -/
def emptyShoeUI : UIState :=
  { game := emptyShoeBetting
    snapshot := some emptyShoeBetting.snapshot
    result := none
    uiError := none
    buyIn := 100
    betInput := 50 }

/-- A concrete split hand reaching 21 (Ace + King after a split). -/
def splitTwentyOne : Hand :=
  { playerId := 0
    cards := [⟨.Hearts, 1⟩, ⟨.Spades, 13⟩]
    bet := 50
    status := .Stood
    fromSplit := true
    splitDepth := 1 }

/- ===================== Shared lemmas ===================== -/

set_option maxRecDepth 100000
set_option maxHeartbeats 1000000

theorem snapshot_state (g : Game) :
    (Game.snapshot g).state = phaseName g.phase := rfl

theorem snapshot_dealer (g : Game) :
    (Game.snapshot g).dealer = dealerView g.dealer := rfl

theorem dealerView_hole (d : DealerHand) :
    (dealerView d).hole_revealed = d.holeRevealed := rfl

/-- While the hole is hidden, every snapshot dealer card after the
up-card is nulled. -/
theorem dealerView_masked (d : DealerHand) (h : d.holeRevealed = false) :
    ∀ oc ∈ (dealerView d).cards.drop 1, oc = none := by
  intro oc hoc
  simp only [dealerView, h, if_neg, Bool.false_eq_true, not_false_iff,
    ite_false] at hoc
  cases hd : d.cards with
  | nil => rw [hd] at hoc; simp at hoc
  | cons c rest =>
    rw [hd] at hoc
    simp only [List.drop_succ_cons, List.drop_zero] at hoc
    obtain ⟨a, _, hx⟩ := List.mem_map.mp hoc
    exact hx.symm

/- ===================== C1 ===================== -/

/-- Claim C1: in every snapshot with `hole_revealed` false the dealer's
cards after the up-card are nulled, the app renders a nulled card as
"??" with css class "card hidden", and the dealer's full value is
displayed as "?" rather than `dealer.value`. -/
theorem c1_dealer_hole_masked (g : Game)
    (hrev : (Game.snapshot g).dealer.hole_revealed = false) :
    (∀ oc ∈ (Game.snapshot g).dealer.cards.drop 1, oc = none) ∧
    (∀ oc ∈ (Game.snapshot g).dealer.cards.drop 1,
        formatCard (oc.map Card.toJs) = "??" ∧
        cardClass (oc.map Card.toJs) = "card hidden") ∧
    formatCard none = "??" ∧ cardClass none = "card hidden" ∧
    dealerValueText (Game.snapshot g).dealer.hole_revealed
      (Game.snapshot g).dealer.value = "?" := by
  refine ⟨?_, ?_, rfl, rfl, ?_⟩
  · rw [snapshot_dealer]
    exact dealerView_masked g.dealer hrev
  · rw [snapshot_dealer]
    intro oc hoc
    rw [dealerView_masked g.dealer hrev oc hoc]
    exact ⟨rfl, rfl⟩
  · rw [hrev]
    rfl

/-- Concrete check of C1 on the demonstration deal: the hole is
hidden and every masked conclusion holds there. -/
theorem c1_dealer_hole_masked_witness :
    (Game.snapshot demoDealt).dealer.hole_revealed = false ∧
    ((∀ oc ∈ (Game.snapshot demoDealt).dealer.cards.drop 1, oc = none) ∧
     (∀ oc ∈ (Game.snapshot demoDealt).dealer.cards.drop 1,
        formatCard (oc.map Card.toJs) = "??" ∧
        cardClass (oc.map Card.toJs) = "card hidden") ∧
     formatCard none = "??" ∧ cardClass none = "card hidden" ∧
     dealerValueText (Game.snapshot demoDealt).dealer.hole_revealed
       (Game.snapshot demoDealt).dealer.value = "?") :=
  ⟨by decide, c1_dealer_hole_masked demoDealt (by decide)⟩

/- ===================== C2 ===================== -/

/-- Claim C2: two engines built with equal seeds and fed equal action
sequences produce identical snapshot traces, identical recorded
RoundResults, identical showdown outcomes, and identical shuffled
shoes (the same draw order). -/
theorem c2_same_seed_determinism (opts : GameOptions) (s1 s2 : Nat)
    (a1 a2 : List GameAction) (hs : s1 = s2) (ha : a1 = a2) :
    snapshotTrace opts s1 a1 = snapshotTrace opts s2 a2 ∧
    (runActions opts s1 a1).roundResult =
      (runActions opts s2 a2).roundResult ∧
    (runActions opts s1 a1).showdownAct =
      (runActions opts s2 a2).showdownAct ∧
    (Game.new opts s1).shoe = (Game.new opts s2).shoe := by
  subst hs; subst ha; exact ⟨rfl, rfl, rfl, rfl⟩

/-- Concrete check of C2 at seed 1 and the demonstration actions. -/
theorem c2_same_seed_determinism_witness :
    snapshotTrace demoOptions 1 demoActs = snapshotTrace demoOptions 1 demoActs ∧
    (runActions demoOptions 1 demoActs).roundResult =
      (runActions demoOptions 1 demoActs).roundResult ∧
    (runActions demoOptions 1 demoActs).showdownAct =
      (runActions demoOptions 1 demoActs).showdownAct ∧
    (Game.new demoOptions 1).shoe = (Game.new demoOptions 1).shoe :=
  c2_same_seed_determinism demoOptions 1 1 demoActs demoActs rfl rfl

/- ===================== C3 ===================== -/

/-- Claim C3 counterexample: the repository's declared `WasmGame.bet` takes
a single `amount` parameter, not `(player_id, amount)`, and the UI's
`handleBetAndDeal` invokes it with the single argument `bet`. -/
theorem c3_bet_arity_counterexample :
    wasmGameBetParams ≠ ["player_id", "amount"] ∧
    wasmGameBetParams.length = 1 ∧
    handleBetAndDealBetArgs 50 = [50] ∧
    (handleBetAndDealBetArgs 50).length ≠ 2 := by decide

/-- Claim C3 amended: the core engine's bet takes `(player_id, amount)` (as
in the README example), while the wasm binding's bet takes only the
amount, the UI passes only the amount, and the joined player's id is
supplied implicitly by the binding. -/
theorem c3_bet_arity_amended :
    coreGameBetParams = ["player_id", "amount"] ∧
    wasmGameBetParams = ["amount"] ∧
    (∀ b : Nat, handleBetAndDealBetArgs b = [b]) ∧
    (∀ ui : UIState, handleBetAndDeal ui =
        withGameRun ui [.bet (currentPlayerId ui.game) ui.betInput, .deal]
          true true) :=
  ⟨rfl, rfl, fun _ => rfl, fun _ => rfl⟩

/- ===================== C8 ===================== -/

/-- Claim C8: `rankLabel` maps 1 to "A", 11/12/13 to "J"/"Q"/"K" and every
rank 2..10 to its decimal string; `suitLabel` maps the four suit names
to their glyphs. -/
theorem c8_rank_suit_labels :
    rankLabel 1 = "A" ∧ rankLabel 11 = "J" ∧ rankLabel 12 = "Q" ∧
    rankLabel 13 = "K" ∧
    (∀ r : Nat, 2 ≤ r → r ≤ 10 → rankLabel r = toString r) ∧
    suitLabel "Hearts" = "♥" ∧ suitLabel "Diamonds" = "♦" ∧
    suitLabel "Clubs" = "♣" ∧ suitLabel "Spades" = "♠" := by
  refine ⟨rfl, rfl, rfl, rfl, ?_, rfl, rfl, rfl, rfl⟩
  intro r h1 h2
  interval_cases r <;> rfl

/-- Concrete check of C8's decimal branch at rank 7. -/
theorem c8_rank_suit_labels_witness :
    2 ≤ 7 ∧ 7 ≤ 10 ∧ rankLabel 7 = toString 7 :=
  ⟨by decide, by decide,
   c8_rank_suit_labels.2.2.2.2.1 7 (by decide) (by decide)⟩

/- ===================== C10 ===================== -/

/-- Claim C10: every seed produced by `makeSeed` is `now % 2^32`, hence a
non-negative integer strictly below 2^32, fitting the engine's 32-bit
seed parameter. -/
theorem c10_makeSeed_u32 :
    ∀ now : Nat, makeSeed now < 4294967296 ∧
      makeSeed now = now % 4294967296 :=
  fun now => ⟨Nat.mod_lt now (by norm_num), rfl⟩

/- ===================== Step inversion lemmas ===================== -/

theorem liftStep_err (g : Game) (x : Except GameError Game) (e : GameError)
    (h : (liftStep g x).2 = some e) : (liftStep g x).1 = g := by
  cases x with
  | ok g' => simp [liftStep] at h
  | error e' => rfl

theorem liftStepV_err {α : Type} (g : Game) (x : Except GameError (α × Game))
    (e : GameError) (h : (liftStepV g x).2 = some e) :
    (liftStepV g x).1 = g := by
  cases x with
  | ok p => obtain ⟨a, g'⟩ := p; simp [liftStepV] at h
  | error e' => rfl

theorem liftStep_ok (g g1 : Game) (x : Except GameError Game)
    (h : liftStep g x = (g1, none)) : x = .ok g1 := by
  cases x with
  | ok g2 =>
    simp only [liftStep, Prod.mk.injEq] at h
    rw [h.1]
  | error e => simp [liftStep] at h

/-- A failed engine call leaves the engine state unchanged. -/
theorem applyAction_err (g : Game) (a : GameAction) (e : GameError)
    (h : (g.applyAction a).2 = some e) : (g.applyAction a).1 = g := by
  cases a <;> simp only [Game.applyAction] at h ⊢ <;>
    first
      | exact liftStep_err g _ e h
      | exact liftStepV_err g _ e h
      | simp at h

/- ===================== C4 ===================== -/

/-- Claim C4 amended: every single engine call is atomic - a failed call
leaves the engine state unchanged, and for a `withGame` callback that
runs one engine call the error path records the error while keeping
the displayed snapshot, result and engine exactly as before. (The
composite bet-then-deal callback is not one atomic unit; see the
counterexample.) -/
theorem c4_failed_call_atomic :
    (∀ (g : Game) (a : GameAction) (e : GameError),
        (g.applyAction a).2 = some e → (g.applyAction a).1 = g) ∧
    (∀ (ui : UIState) (a : GameAction) (e : GameError) (auto clears : Bool),
        (ui.game.applyAction a).2 = some e →
        (withGameRun ui [a] auto clears).1.game = ui.game ∧
        (withGameRun ui [a] auto clears).1.snapshot = ui.snapshot ∧
        (withGameRun ui [a] auto clears).1.result = ui.result ∧
        (withGameRun ui [a] auto clears).1.uiError = some e) := by
  constructor
  · exact applyAction_err
  · intro ui a e auto clears h
    rcases happ : ui.game.applyAction a with ⟨g1, e1⟩
    have hg1 : g1 = ui.game := by
      have h0 := applyAction_err ui.game a e h
      rw [happ] at h0; exact h0
    have he1 : e1 = some e := by rw [happ] at h; exact h
    subst hg1; subst he1
    simp [withGameRun, runCalls, happ]

/-- Claim C4 counterexample: in the composite bet-then-deal handler on an
exhausted shoe the bet succeeds and the deal fails; the handler as a
whole fails, yet the engine state after it differs from the state
before it (the bet is escrowed), and the stale snapshot the UI keeps
displaying no longer agrees with a snapshot taken afterwards. -/
theorem c4_composite_mutates :
    (handleBetAndDeal emptyShoeUI).1.uiError = some GameError.ShoeExhausted ∧
    (handleBetAndDeal emptyShoeUI).1.game ≠ emptyShoeUI.game ∧
    (handleBetAndDeal emptyShoeUI).1.snapshot =
      some (Game.snapshot emptyShoeUI.game) ∧
    (handleBetAndDeal emptyShoeUI).1.snapshot ≠
      some (Game.snapshot (handleBetAndDeal emptyShoeUI).1.game) := by
  decide

/-- Concrete check of C4's amended statement: dealing during
`PlayerTurn` fails with `InvalidPhase` and changes nothing, in the
engine and in the UI. -/
theorem c4_failed_call_atomic_witness :
    (demoDealt.applyAction .deal).2 = some GameError.InvalidPhase ∧
    ((withGameRun demoUIDealt [.deal] true false).1.game = demoUIDealt.game ∧
     (withGameRun demoUIDealt [.deal] true false).1.snapshot =
       demoUIDealt.snapshot ∧
     (withGameRun demoUIDealt [.deal] true false).1.result =
       demoUIDealt.result ∧
     (withGameRun demoUIDealt [.deal] true false).1.uiError =
       some GameError.InvalidPhase) :=
  ⟨by decide,
   c4_failed_call_atomic.2 demoUIDealt .deal .InvalidPhase true false
     (by decide)⟩

/- ===================== C5 ===================== -/

/-- A successful showdown is idempotent: calling it again returns the
same result and the same (unchanged) state. -/
theorem showdown_twice (g g' : Game) (r : RoundResult)
    (h : g.showdownAct = .ok (r, g')) :
    g'.showdownAct = .ok (r, g') ∧ g'.roundResult = some r := by
  unfold Game.showdownAct at h
  cases hr : g.roundResult with
  | some r0 =>
    rw [hr] at h
    injection h with hp
    injection hp with h1 h2
    subst h1; subst h2
    constructor
    · unfold Game.showdownAct
      rw [hr]
    · exact hr
  | none =>
    rw [hr] at h
    by_cases hp : g.phase = .RoundOver
    · rw [if_neg (by simp [hp])] at h
      injection h with hpair
      injection hpair with h1 h2
      subst h1; subst h2
      exact ⟨rfl, rfl⟩
    · rw [if_pos (by simp [hp])] at h
      exact Except.noConfusion h

/-- Claim C5: `showdown()` called a second time in the same round returns
the identical RoundResult from the identical (unchanged) state, so no
money is credited again; the UI's showdown button is a no-op while a
result is displayed, and auto-resolve never calls `showdown()` while
a result is recorded. -/
theorem c5_showdown_idempotent :
    (∀ (g g' : Game) (r : RoundResult),
        g.showdownAct = .ok (r, g') →
        g'.showdownAct = .ok (r, g') ∧ g'.roundResult = some r) ∧
    (∀ ui : UIState, ui.result.isSome = true → handleShowdown ui = (ui, [])) ∧
    (∀ (g : Game) (snap : Snapshot) (prev : Option RoundResult),
        GameAction.showdown ∉ (autoResolveIfNeeded g snap true prev).calls) := by
  refine ⟨showdown_twice, ?_, ?_⟩
  · intro ui h
    unfold handleShowdown
    rw [if_pos h]
  · intro g snap prev
    by_cases h1 : snap.state = "DealerTurn"
    · unfold autoResolveIfNeeded
      rw [if_pos h1]
      rcases happ : g.applyAction .dealerPlay with ⟨g1, e1⟩
      cases e1 with
      | some e => simp
      | none => simp
    · unfold autoResolveIfNeeded
      rw [if_neg h1]
      simp

/-- Concrete check of C5: the demonstration round's recorded showdown
is returned unchanged by a second call, and the UI showdown handler is
a no-op once the result is displayed. -/
theorem c5_showdown_idempotent_witness :
    (demoSettled.2.showdownAct = .ok (demoSettled.1, demoSettled.2) ∧
     demoSettled.2.roundResult = some demoSettled.1) ∧
    handleShowdown demoUIWithResult = (demoUIWithResult, []) :=
  ⟨c5_showdown_idempotent.1 demoRoundOver demoSettled.2 demoSettled.1
     (by decide),
   c5_showdown_idempotent.2.1 demoUIWithResult (by decide)⟩

/- ===================== C6 ===================== -/

/-- Claim C6: a hand is classified Blackjack exactly when it has two cards,
value 21 and `from_split` false; a split hand is never Blackjack and a
split two-card 21 that wins settles at the plain 2x payout, never the
bonus. -/
theorem c6_blackjack_classification :
    (∀ h : Hand, h.isBlackjack = true ↔
        (h.cards.length = 2 ∧ handValue h.cards = 21 ∧ h.fromSplit = false)) ∧
    (∀ h : Hand, h.fromSplit = true → h.isBlackjack = false) ∧
    (∀ (opts : GameOptions) (h : Hand) (dv : Nat),
        h.fromSplit = true → h.status ≠ .Surrendered →
        handValue h.cards = 21 → dv < 21 →
        settleHand opts h dv false = (.Win, 2 * h.bet)) := by
  have part1 : ∀ h : Hand, h.isBlackjack = true ↔
      (h.cards.length = 2 ∧ handValue h.cards = 21 ∧ h.fromSplit = false) := by
    intro h
    simp [Hand.isBlackjack, Bool.and_eq_true, beq_iff_eq, Bool.not_eq_true',
      and_assoc]
  have part2 : ∀ h : Hand, h.fromSplit = true → h.isBlackjack = false := by
    intro h hs
    cases hbj : h.isBlackjack with
    | false => rfl
    | true =>
      have := (part1 h).mp hbj
      rw [hs] at this
      exact absurd this.2.2 (by simp)
  refine ⟨part1, part2, ?_⟩
  intro opts h dv hs hst hv hdv
  have hbj := part2 h hs
  simp [settleHand, hst, hv, hdv, hbj, Nat.lt_irrefl, Nat.ne_of_gt hdv]

/-- Concrete check of C6 on a split Ace-King: not a Blackjack, and a
win over a dealer 18 pays 100 on a 50 bet (2x, no bonus). -/
theorem c6_blackjack_classification_witness :
    splitTwentyOne.fromSplit = true ∧
    splitTwentyOne.isBlackjack = false ∧
    settleHand demoOptions splitTwentyOne 18 false = (.Win, 100) :=
  ⟨by decide,
   c6_blackjack_classification.2.1 splitTwentyOne (by decide),
   c6_blackjack_classification.2.2 demoOptions splitTwentyOne 18
     (by decide) (by decide) (by decide) (by decide)⟩

/- ===================== C7 ===================== -/

theorem clearRound_ok (g g' : Game) (h : g.clearRoundAct = .ok g') :
    g'.phase = .Idle ∧ g'.hands = [] ∧ g'.roundResult = none ∧
    g'.players = g.players ∧ g'.dealer = ⟨[], false⟩ ∧ g'.turn = none := by
  unfold Game.clearRoundAct at h
  split at h
  · exact Except.noConfusion h
  · injection h with h'
    subst h'
    exact ⟨rfl, rfl, rfl, rfl, rfl, rfl⟩

theorem startBetting_ok (g g' : Game) (h : g.startBettingAct = .ok g') :
    g'.phase = .Betting ∧ g'.players = g.players := by
  unfold Game.startBettingAct at h
  split at h
  · injection h with h'
    subst h'
    exact ⟨rfl, rfl⟩
  · exact Except.noConfusion h

/-- Claim C7: `clear_round` discards all hands, the dealer hand and the
RoundResult and returns to `Idle`, leaving every player's money and id
unchanged; on success the UI's Next-round handler clears the displayed
result and leaves the game in `Betting` with players untouched. -/
theorem c7_clear_round :
    (∀ g g' : Game, g.clearRoundAct = .ok g' →
        g'.phase = .Idle ∧ g'.hands = [] ∧ g'.roundResult = none ∧
        g'.players = g.players ∧ g'.dealer = ⟨[], false⟩ ∧ g'.turn = none) ∧
    (∀ ui : UIState,
        (runCalls ui.game [.clearRound, .startBetting]).2.1 = none →
        (handleNextRound ui).1.result = none ∧
        (handleNextRound ui).1.uiError = none ∧
        ((handleNextRound ui).1.snapshot).map (·.state) = some "Betting" ∧
        (handleNextRound ui).1.game.players = ui.game.players) := by
  refine ⟨clearRound_ok, ?_⟩
  intro ui h
  rcases hc : ui.game.applyAction .clearRound with ⟨g1, e1⟩
  cases e1 with
  | some e => simp [runCalls, hc] at h
  | none =>
    rcases hb : g1.applyAction .startBetting with ⟨g2, e2⟩
    cases e2 with
    | some e => simp [runCalls, hc, hb] at h
    | none =>
      have hcr : ui.game.clearRoundAct = .ok g1 := liftStep_ok _ _ _ hc
      have hsb : g1.startBettingAct = .ok g2 := liftStep_ok _ _ _ hb
      have hcp := clearRound_ok ui.game g1 hcr
      have hsp := startBetting_ok g1 g2 hsb
      have hrc : runCalls ui.game [.clearRound, .startBetting] =
          (g2, none, [.clearRound, .startBetting]) := by
        simp [runCalls, hc, hb]
      have hsnap : (Game.snapshot g2).state = "Betting" := by
        rw [snapshot_state, hsp.1]
        rfl
      have hauto : autoResolveIfNeeded g2 (Game.snapshot g2)
          ui.result.isSome none = ⟨g2, Game.snapshot g2, none, none, []⟩ := by
        unfold autoResolveIfNeeded
        rw [if_neg (by rw [hsnap]; decide)]
        rw [if_neg (by rw [hsnap]; simp)]
      have hwg : handleNextRound ui =
          ({ ui with game := g2, snapshot := some (Game.snapshot g2),
                     result := none, uiError := none },
           [.clearRound, .startBetting]) := by
        unfold handleNextRound withGameRun
        rw [hrc]
        simp [hauto]
      refine ⟨?_, ?_, ?_, ?_⟩
      · rw [hwg]
      · rw [hwg]
      · rw [hwg]
        simp [hsnap]
      · rw [hwg]
        show g2.players = ui.game.players
        rw [hsp.2, hcp.2.2.2.1]

/-- Concrete check of C7 on the settled demonstration round. -/
theorem c7_clear_round_witness :
    (runCalls demoUIWithResult.game
        [GameAction.clearRound, GameAction.startBetting]).2.1 = none ∧
    ((handleNextRound demoUIWithResult).1.result = none ∧
     (handleNextRound demoUIWithResult).1.uiError = none ∧
     ((handleNextRound demoUIWithResult).1.snapshot).map (·.state) =
       some "Betting" ∧
     (handleNextRound demoUIWithResult).1.game.players =
       demoUIWithResult.game.players) :=
  ⟨by decide, c7_clear_round.2 demoUIWithResult (by decide)⟩

/- ===================== C9 ===================== -/

/-- Claim C9: after a successful `withGame` callback with autoResolve
enabled the app defers to `autoResolveIfNeeded` on the refreshed
snapshot with the result flag captured at entry; when that snapshot is
in `DealerTurn` the auto-resolve invokes `dealer_play()` exactly once
and refreshes; then, when the re-refreshed snapshot is in `RoundOver`
and no round result is recorded, it invokes `showdown()` exactly once,
records its result and refreshes again. -/
theorem c9_auto_resolve :
    (∀ (ui : UIState) (acts : List GameAction) (clears : Bool),
        (runCalls ui.game acts).2.1 = none →
        withGameRun ui acts true clears =
          ({ ui with game := (wgAuto ui acts clears).game
                     snapshot := some (wgAuto ui acts clears).snap
                     result := (wgAuto ui acts clears).result
                     uiError := (wgAuto ui acts clears).err },
           (runCalls ui.game acts).2.2 ++ (wgAuto ui acts clears).calls)) ∧
    (∀ (g : Game) (snap : Snapshot) (hasR : Bool) (prev : Option RoundResult),
        snap.state = "DealerTurn" →
        (autoResolveIfNeeded g snap hasR prev).calls.count .dealerPlay = 1) ∧
    (∀ (g g1 : Game) (snap : Snapshot) (hasR : Bool)
        (prev : Option RoundResult),
        snap.state = "DealerTurn" →
        g.applyAction .dealerPlay = (g1, none) →
        ¬((Game.snapshot g1).state = "RoundOver" ∧ hasR = false) →
        autoResolveIfNeeded g snap hasR prev =
          ⟨g1, Game.snapshot g1, prev, none, [.dealerPlay]⟩) ∧
    (∀ (g g1 g2 : Game) (snap : Snapshot) (prev : Option RoundResult)
        (r : RoundResult),
        snap.state = "DealerTurn" →
        g.applyAction .dealerPlay = (g1, none) →
        (Game.snapshot g1).state = "RoundOver" →
        g1.showdownAct = .ok (r, g2) →
        autoResolveIfNeeded g snap false prev =
          ⟨g2, Game.snapshot g2, some r, none, [.dealerPlay, .showdown]⟩) := by
  refine ⟨?_, ?_, ?_, ?_⟩
  · intro ui acts clears h
    rcases hrc : runCalls ui.game acts with ⟨g1, e1, tr⟩
    rw [hrc] at h
    have he : e1 = none := h
    subst he
    unfold withGameRun wgAuto
    rw [hrc]
    rfl
  · intro g snap hasR prev h1
    unfold autoResolveIfNeeded
    rw [if_pos h1]
    rcases happ : g.applyAction .dealerPlay with ⟨g1, e1⟩
    cases e1 with
    | some e => rfl
    | none =>
      dsimp only
      split
      · split <;> rfl
      · rfl
  · intro g g1 snap hasR prev h1 happ h2
    unfold autoResolveIfNeeded
    rw [if_pos h1, happ]
    dsimp only
    rw [if_neg h2]
  · intro g g1 g2 snap prev r h1 happ h2 hsd
    unfold autoResolveIfNeeded
    rw [if_pos h1, happ]
    dsimp only
    rw [if_pos ⟨h2, rfl⟩, hsd]

/-- Concrete check of C9 on the demonstration round: standing hands
control to the dealer, auto-resolve plays the dealer once, runs the
showdown once and records its result. -/
theorem c9_auto_resolve_witness :
    (withGameRun demoUIDealt [.stand 0] true false =
      ({ demoUIDealt with
          game := (wgAuto demoUIDealt [.stand 0] false).game
          snapshot := some (wgAuto demoUIDealt [.stand 0] false).snap
          result := (wgAuto demoUIDealt [.stand 0] false).result
          uiError := (wgAuto demoUIDealt [.stand 0] false).err },
       (runCalls demoUIDealt.game [.stand 0]).2.2 ++
         (wgAuto demoUIDealt [.stand 0] false).calls)) ∧
    (autoResolveIfNeeded demoStandGame (Game.snapshot demoStandGame) false
        none).calls.count .dealerPlay = 1 ∧
    autoResolveIfNeeded demoStandGame (Game.snapshot demoStandGame) false
        none =
      ⟨demoAutoFinal.2, Game.snapshot demoAutoFinal.2, some demoAutoFinal.1,
       none, [.dealerPlay, .showdown]⟩ :=
  ⟨c9_auto_resolve.1 demoUIDealt [.stand 0] false (by decide),
   c9_auto_resolve.2.1 demoStandGame (Game.snapshot demoStandGame) false none
     (by decide),
   c9_auto_resolve.2.2.2 demoStandGame demoDealerPlayed demoAutoFinal.2
     (Game.snapshot demoStandGame) none demoAutoFinal.1
     (by decide) (by decide) (by decide) (by decide)⟩
